import Mathlib

/-!
Verification development for the geospatial projection / measurement /
georeferenced-export core of the map-clipping application.

The TypeScript source is shallowly embedded:
* pure numeric code is translated to functions over `ℚ` (decimal literals in
  the source are exact decimal fractions) or over `ℝ` where the source calls
  the transcendental `Math.cos`;
* the JavaScript special values `Infinity`, `-Infinity` and `NaN`, which flow
  through the export pipeline when a geometry collection is empty, are
  modelled by the type `JVal`;
* `Number.prototype.toFixed(f)` is modelled by `toFixedQ f` (round half away
  from zero on the magnitude, sign prepended, `f` fractional digits);
* external collaborators (the proj4 transform engine, the OpenLayers
  spherical measurement backends `getLength` / `getArea`, the rendered layer
  surfaces) are passed as parameters; the code of this repository around them
  is translated statement by statement.
-/

/-! ## Decimal rendering: the model of JavaScript `toFixed` -/

/-- Fuel-driven digit extraction for a natural number, most significant digit
first.  Structural recursion on the fuel keeps the function kernel-reducible. -/
def natToDigitsAux : Nat → Nat → List Char
  | 0, _ => []
  | fuel + 1, n =>
    if n < 10 then [Nat.digitChar n]
    else natToDigitsAux fuel (n / 10) ++ [Nat.digitChar (n % 10)]

/-- Decimal digits of a natural number, most significant first. -/
def natToDigits (n : Nat) : List Char :=
  natToDigitsAux (n + 1) n

/-- Exactly `k` decimal digits of `m % 10 ^ k`, zero padded on the left. -/
def padDigits : Nat → Nat → List Char
  | 0, _ => []
  | k + 1, m => padDigits k (m / 10) ++ [Nat.digitChar (m % 10)]

/-- The integer scaled magnitude chosen by `toFixed`: the ECMA-262 rule picks
the integer n minimizing the distance of `n / 10 ^ f` to the magnitude of the
argument, ties resolved to the larger n. -/
def toFixedRound (f : Nat) (x : ℚ) : Nat :=
  ⌊|x| * 10 ^ f + 1 / 2⌋₊

/-- Model of `x.toFixed(f)` for `f > 0`: the rounded magnitude is rendered
with exactly `f` fractional digits and a minus sign is prepended when
`x < 0`. -/
def toFixedQ (f : Nat) (x : ℚ) : String :=
  if x < 0 then
    "-" ++ (String.mk (natToDigits (toFixedRound f x / 10 ^ f)) ++ "." ++
      String.mk (padDigits f (toFixedRound f x % 10 ^ f)))
  else
    String.mk (natToDigits (toFixedRound f x / 10 ^ f)) ++ "." ++
      String.mk (padDigits f (toFixedRound f x % 10 ^ f))

/-- A string is a fixed-point decimal with `f` fractional digits: an optional
minus sign, a nonempty run of digits, a dot, then exactly `f` digits. -/
def isFixedDec (f : Nat) (s : String) : Prop :=
  ∃ ip fp : List Char,
    (s.data = ip ++ '.' :: fp ∨ s.data = '-' :: (ip ++ '.' :: fp)) ∧
    ip ≠ [] ∧ fp.length = f ∧
    (∀ c ∈ ip, c.isDigit = true) ∧ (∀ c ∈ fp, c.isDigit = true)

/-! ## Geometry measurement formatters

In the source (`MapComponent.tsx`, `formatLength` / `formatAreaMetric`) these
receive an OpenLayers geometry and first call the external spherical backends
`getLength` / `getArea`; the embedding takes that ground measurement (meters,
respectively square meters) directly as the `ℚ` argument and translates the
unit dispatch verbatim. -/

def formatLength (length : ℚ) (unit : String) : String :=
  if unit = "km" then toFixedQ 2 (length / 1000) ++ " km"
  else if unit = "ft" then toFixedQ 2 (length * 3.28084) ++ " ft"
  else if unit = "mi" then toFixedQ 3 (length * 0.000621371) ++ " mi"
  else toFixedQ 2 length ++ " m"

def formatAreaMetric (area : ℚ) (unit : String) : String :=
  if unit = "ha" then toFixedQ 2 (area / 10000) ++ " ha"
  else if unit = "sqkm" then toFixedQ 2 (area / 1000000) ++ " km²"
  else if unit = "ac" then toFixedQ 2 (area * 0.000247105) ++ " ac"
  else toFixedQ 2 area ++ " m²"

/-- Unit identifiers used by the host UI when calling the formatters. -/
def kmUnit : String := "km"

def miUnit : String := "mi"

def ftUnit : String := "ft"

def meterUnit : String := "m"

def haUnit : String := "ha"

def sqkmUnit : String := "sqkm"

def acUnit : String := "ac"

def sqmUnit : String := "sqm"

/-! ## Scale and resolution conversion (`geoService`)

`calculateScale` in the source computes the value below and returns
`scale.toFixed(0)` for display; the numeric content is the value.  Both
functions call the transcendental `Math.cos`, so they are embedded over `ℝ`. -/

/-- Numeric core of `calculateScale`: ground resolution at the latitude,
divided by the meters-per-pixel-per-scale-unit constant. -/
noncomputable def calculateScaleVal (resolution lat : ℝ) : ℝ :=
  resolution * Real.cos (lat * Real.pi / 180) / 0.000264583333

/-- `getResolutionFromScale`: the inverse conversion, scale to resolution. -/
noncomputable def getResolutionFromScale (scaleValue lat : ℝ) : ℝ :=
  scaleValue * 0.000264583333 / Real.cos (lat * Real.pi / 180)

/-! ## Zone projection service (`geoService`)

`projectFromZone` delegates the regional transforms to the external proj4
engine (initialised with the four Moroccan Lambert zone definition strings)
and post-processes the result.  The engine is a parameter `tr`; an exception
raised by it (malformed zone string, unparsable input) is the `exn` outcome,
caught by the try/catch of the source and turned into `none`.  `ℚ`-valued
coordinates model the non-NaN numbers reaching this code (batch import
filters NaN out before the call; the additional `isNaN` test of the source is
vacuous under this value model). -/

inductive Proj4Result where
  | ok (lng lat : ℚ)
  | exn
deriving DecidableEq

/-- The trivial geodetic zone identifier. -/
def wgsZone : String := "EPSG:4326"

/-- A regional zone identifier (Zone 1, Nord Maroc). -/
def zone1 : String := "EPSG:26191"

/-- The fixed geographic validity envelope tested by `projectFromZone`. -/
def envelopeOk (lng lat : ℚ) : Prop :=
  20 ≤ lat ∧ lat ≤ 38 ∧ -19 ≤ lng ∧ lng ≤ 1

instance (lng lat : ℚ) : Decidable (envelopeOk lng lat) := by
  unfold envelopeOk; infer_instance

/-- `projectFromZone(x, y, zoneCode)`: trivial zone passes range-checked
input through; regional zones transform through proj4 and reject results
outside the validity envelope; every failure path yields `none`, never an
exception. -/
def projectFromZone (tr : String → ℚ → ℚ → Proj4Result) (x y : ℚ)
    (zoneCode : String) : Option (ℚ × ℚ) :=
  if zoneCode = wgsZone then
    if |y| ≤ 90 ∧ |x| ≤ 180 then some (x, y) else none
  else
    match tr zoneCode x y with
    | .exn => none
    | .ok lng lat => if envelopeOk lng lat then some (lng, lat) else none

/-- `convertToWGS84` returns the coordinates of the geodetic frame as
strings; the shape mirrors the `WGS84Coords` interface of the source. -/
structure WGS84Coords where
  lat : String
  lng : String
deriving DecidableEq

/-- `convertToWGS84(x, y)`: formats the proj4 inverse-mercator result with 6
fractional digits; the try/catch of the source maps an engine exception to
the fixed sentinel pair. -/
def convertToWGS84 (tr : ℚ → ℚ → Proj4Result) (x y : ℚ) : WGS84Coords :=
  match tr x y with
  | .ok lng lat => ⟨toFixedQ 6 lat, toFixedQ 6 lng⟩
  | .exn => ⟨"0.000000", "0.000000"⟩

/-! ## Batch point import (`processExcelFile`)

A parsed spreadsheet row after header matching and `parseCoordinateValue`:
`none` in a coordinate slot stands for a missing column or a value whose
parse produced NaN (both are filtered identically by the source).  The
source walks the rows with `forEach`, pushing the projected point of each
row that passes parsing and projection. -/

structure ExcelRow where
  rawX : Option ℚ
  rawY : Option ℚ
  label : Option String

structure ValidPoint where
  x : ℚ
  y : ℚ
  label : Option String
deriving DecidableEq

/-- The point contributed by one row, if any. -/
def rowPoint (tr : String → ℚ → ℚ → Proj4Result) (zone : String)
    (r : ExcelRow) : Option ValidPoint :=
  match r.rawX, r.rawY with
  | some x, some y =>
    match projectFromZone tr x y zone with
    | some (lng, lat) => some ⟨lng, lat, r.label⟩
    | none => none
  | _, _ => none

/-- The `forEach` + `push` accumulation of `processExcelFile`. -/
def processExcelRows (tr : String → ℚ → ℚ → Proj4Result) (zone : String)
    (rows : List ExcelRow) : List ValidPoint :=
  rows.foldl
    (fun acc r =>
      match rowPoint tr zone r with
      | some p => acc ++ [p]
      | none => acc) []

/-! ## JavaScript numbers with special values

The export pipeline manipulates OpenLayers extents; the extent of an empty
vector source is the sentinel `[Infinity, Infinity, -Infinity, -Infinity]`,
and the arithmetic of `getMapCanvas` then propagates infinities and NaN.
`JVal` models the JavaScript number semantics actually exercised on these
paths: finite values are exact rationals, the special values are explicit
constructors, and each operation matches the IEEE-754 rules used by
JavaScript (ignoring the signed zero of divisors, which never arises here). -/

inductive JVal where
  | num (q : ℚ)
  | inf
  | ninf
  | nan
deriving DecidableEq

def jneg : JVal → JVal
  | .num q => .num (-q)
  | .inf => .ninf
  | .ninf => .inf
  | .nan => .nan

def jadd : JVal → JVal → JVal
  | .nan, _ => .nan
  | _, .nan => .nan
  | .num a, .num b => .num (a + b)
  | .inf, .ninf => .nan
  | .ninf, .inf => .nan
  | .inf, _ => .inf
  | _, .inf => .inf
  | .ninf, _ => .ninf
  | _, .ninf => .ninf

def jsub (a b : JVal) : JVal := jadd a (jneg b)

def jdiv : JVal → JVal → JVal
  | .nan, _ => .nan
  | _, .nan => .nan
  | .num a, .num b =>
    if b = 0 then (if a = 0 then .nan else if 0 < a then .inf else .ninf)
    else .num (a / b)
  | .inf, .num b => if b < 0 then .ninf else .inf
  | .ninf, .num b => if b < 0 then .inf else .ninf
  | .num _, .inf => .num 0
  | .num _, .ninf => .num 0
  | .inf, .inf => .nan
  | .inf, .ninf => .nan
  | .ninf, .inf => .nan
  | .ninf, .ninf => .nan

def jceil : JVal → JVal
  | .num q => .num ⌈q⌉
  | .inf => .inf
  | .ninf => .ninf
  | .nan => .nan

/-- JavaScript strict greater-than: false whenever NaN is involved. -/
def jgt : JVal → JVal → Bool
  | .nan, _ => false
  | _, .nan => false
  | .num a, .num b => decide (b < a)
  | .inf, .inf => false
  | .inf, _ => true
  | .ninf, _ => false
  | .num _, .inf => false
  | .num _, .ninf => true

/-- JavaScript strict less-than: false whenever NaN is involved. -/
def jlt : JVal → JVal → Bool
  | .nan, _ => false
  | _, .nan => false
  | .num a, .num b => decide (a < b)
  | .inf, _ => false
  | .ninf, .ninf => false
  | .ninf, _ => true
  | .num _, .inf => true
  | .num _, .ninf => false

/-! ## Export pipeline state (`getMapCanvas`)

Features are reduced to their bounding boxes, the only geometry data the
embedded control paths consume; the OpenLayers extent combinator keeps the
componentwise minima and maxima, starting from the empty-extent sentinel. -/

structure ExtentJ where
  minX : JVal
  minY : JVal
  maxX : JVal
  maxY : JVal
deriving DecidableEq

/-- The OpenLayers empty extent `[Infinity, Infinity, -Infinity, -Infinity]`,
returned by `getExtent()` on a source with no features (it is an array, so
the `!extent` test of the source never rejects it). -/
def olEmptyExtent : ExtentJ := ⟨.inf, .inf, .ninf, .ninf⟩

def extendExtent (a b : ExtentJ) : ExtentJ :=
  ⟨if jlt b.minX a.minX then b.minX else a.minX,
   if jlt b.minY a.minY then b.minY else a.minY,
   if jgt b.maxX a.maxX then b.maxX else a.maxX,
   if jgt b.maxY a.maxY then b.maxY else a.maxY⟩

/-- Model of `VectorSource.getExtent()` over the feature bounding boxes. -/
def getExtentJ (fs : List ExtentJ) : ExtentJ :=
  fs.foldl extendExtent olEmptyExtent

/-- The four mutable geometry collections owned by the map view: drawn
selection boundary (`sourceRef`), imported data (`kmlSourceRef`), points
(`pointsSourceRef`) and measurement sketches (`measureSourceRef`). -/
structure MapSources where
  selection : List ExtentJ
  imported : List ExtentJ
  points : List ExtentJ
  measure : List ExtentJ

/-- The view state triple saved and restored by the export: pixel size
(`map.getSize()`), resolution and center. -/
structure ViewState where
  sizeW : JVal
  sizeH : JVal
  res : JVal
  centerX : JVal
  centerY : JVal
deriving DecidableEq

/-- Exit outcomes of `getMapCanvas`: the three `return null` data paths, the
null resolution when no drawing surface is obtained, and the resolved canvas
of the success path (carrying the pixel dimensions and the export extent). -/
inductive ExportOutcome where
  | noData
  | sizeReject
  | surfaceFail (w h : JVal)
  | done (w h : JVal) (extent : ExtentJ)
deriving DecidableEq

/-- The export extent selection: drawn selection boundary first, else
the imported data, else points (the conditional of the source keyed on
`getFeatures().length > 0`). -/
def exportExtent (s : MapSources) : ExtentJ :=
  if s.selection.length > 0 then getExtentJ s.selection
  else if s.imported.length > 0 then getExtentJ s.imported
  else getExtentJ s.points

/-- JavaScript `v || 1` for the resolution read from the view: 0 and NaN are
falsy. -/
def jsOr1 : JVal → JVal
  | .num q => if q = 0 then .num 1 else .num q
  | .nan => .num 1
  | v => v

/-- The export resolution: `targetScale ? getResolutionFromScale(targetScale,
lat) : (originalRes || 1)`.  `resFromScale` abstracts the `ℝ`-level
`getResolutionFromScale` (verified separately), `wgsLat` abstracts
`parseFloat(convertToWGS84(center).lat)`. -/
def exportResOf (resFromScale : JVal → JVal → JVal) (wgsLat : JVal → JVal → JVal)
    (targetScale : Option JVal) (s : MapSources) (v : ViewState) : JVal :=
  match targetScale with
  | some ts =>
    resFromScale ts
      (wgsLat (jdiv (jadd (exportExtent s).minX (exportExtent s).maxX) (.num 2))
              (jdiv (jadd (exportExtent s).minY (exportExtent s).maxY) (.num 2)))
  | none => jsOr1 v.res

/-- `Math.ceil((extent[2] - extent[0]) / exportRes)`. -/
def exportWidthPx (resFromScale wgsLat : JVal → JVal → JVal)
    (targetScale : Option JVal) (s : MapSources) (v : ViewState) : JVal :=
  jceil (jdiv (jsub (exportExtent s).maxX (exportExtent s).minX)
    (exportResOf resFromScale wgsLat targetScale s v))

/-- `Math.ceil((extent[3] - extent[1]) / exportRes)`. -/
def exportHeightPx (resFromScale wgsLat : JVal → JVal → JVal)
    (targetScale : Option JVal) (s : MapSources) (v : ViewState) : JVal :=
  jceil (jdiv (jsub (exportExtent s).maxY (exportExtent s).minY)
    (exportResOf resFromScale wgsLat targetScale s v))

/-- The state-and-outcome semantics of `getMapCanvas(targetScale)`.

Control flow of the source, in order: empty union of the four collections
returns null with the view untouched; the size guard returns null with the
view untouched; otherwise the view is mutated to the export pixel grid and a
render is requested, and inside the render-complete callback a missing 2d
context resolves null **without** executing the restore statements, while the
success path restores the saved size, resolution and center exactly and
resolves the canvas.  `ctxOk` abstracts whether `canvas.getContext('2d')`
yields a drawing surface; the render-complete signal of the collaborator is
assumed to fire. -/
def getMapCanvas (resFromScale wgsLat : JVal → JVal → JVal)
    (targetScale : Option JVal) (ctxOk : Bool) (s : MapSources) (v : ViewState) :
    ExportOutcome × ViewState :=
  if s.selection.length + s.imported.length + s.points.length + s.measure.length = 0 then
    (.noData, v)
  else
    if jgt (exportWidthPx resFromScale wgsLat targetScale s v) (.num 16384)
        || jgt (exportHeightPx resFromScale wgsLat targetScale s v) (.num 16384) then
      (.sizeReject, v)
    else
      if ctxOk then
        (.done (exportWidthPx resFromScale wgsLat targetScale s v)
               (exportHeightPx resFromScale wgsLat targetScale s v)
               (exportExtent s), v)
      else
        (.surfaceFail (exportWidthPx resFromScale wgsLat targetScale s v)
                      (exportHeightPx resFromScale wgsLat targetScale s v),
         ⟨exportWidthPx resFromScale wgsLat targetScale s v,
          exportHeightPx resFromScale wgsLat targetScale s v,
          exportResOf resFromScale wgsLat targetScale s v,
          jdiv (jadd (exportExtent s).minX (exportExtent s).maxX) (.num 2),
          jdiv (jadd (exportExtent s).minY (exportExtent s).maxY) (.num 2)⟩)

/-! ## World file emission (`startClipping`)

After a successful export the host converts the extent corners to the
geodetic frame through proj4 (`minCorner`, `maxCorner`) and derives the six
world-file parameters; the embedding takes the geodetic corners and the
canvas pixel dimensions as inputs and builds the payload verbatim. -/

/-- Per-pixel ground size in degrees along the x axis. -/
def worldPixelSizeX (minLon maxLon w : ℚ) : ℚ := (maxLon - minLon) / w

/-- Per-pixel ground size in degrees along the y axis. -/
def worldPixelSizeY (minLat maxLat h : ℚ) : ℚ := (maxLat - minLat) / h

/-- The six lines of the `.tfw` payload, in emission order. -/
def worldFileLines (minLon minLat maxLon maxLat w h : ℚ) : List String :=
  [toFixedQ 12 (worldPixelSizeX minLon maxLon w),
   "0.000000000000",
   "0.000000000000",
   toFixedQ 12 (-worldPixelSizeY minLat maxLat h),
   toFixedQ 12 minLon,
   toFixedQ 12 maxLat]

def newlineStr : String := "\n"

/-- The emitted world file: the six lines joined with a newline. -/
def tfwPayload (minLon minLat maxLon maxLat w h : ℚ) : String :=
  String.intercalate newlineStr (worldFileLines minLon minLat maxLon maxLat w h)

/-! ## Measurement records and unit propagation (`updateMeasureUnit`)

A completed measurement holds a reference to its geometry (here: the kind of
geometry together with its ground measurement, the quantity the OpenLayers
backends derive from the unchanged geometry) and the currently displayed
tooltip text.  `updateMeasureUnit` rewrites only the displayed text of every
live record, dispatching on the record kind and the geometry class exactly as
the source does (a mismatched pair yields the empty string there). -/

inductive MeasureKind where
  | length
  | area
deriving DecidableEq

inductive MeasureGeom where
  | line (groundMeters : ℚ)
  | poly (groundSquareMeters : ℚ)
deriving DecidableEq

structure MeasurementRecord where
  kind : MeasureKind
  geom : MeasureGeom
  displayed : String
deriving DecidableEq

/-- The per-record body of the `forEach` in `updateMeasureUnit`. -/
def refreshRecord (unit : String) (r : MeasurementRecord) : MeasurementRecord :=
  { r with
    displayed :=
      match r.kind, r.geom with
      | .area, .poly a => formatAreaMetric a unit
      | .length, .line l => formatLength l unit
      | _, _ => "" }

/-- `updateMeasureUnit(unit)` over the live measurement list. -/
def updateMeasureUnit (unit : String) (recs : List MeasurementRecord) :
    List MeasurementRecord :=
  recs.map (refreshRecord unit)

/-! ## Properties of the decimal rendering -/

theorem digitChar_isDigit {n : Nat} (h : n < 10) : (Nat.digitChar n).isDigit = true := by
  interval_cases n <;> decide

theorem natToDigitsAux_digits (fuel n : Nat) :
    ∀ c ∈ natToDigitsAux fuel n, c.isDigit = true := by
  induction fuel generalizing n with
  | zero => intro c hc; simp [natToDigitsAux] at hc
  | succ fuel ih =>
    intro c hc
    by_cases h : n < 10
    · simp [natToDigitsAux, h] at hc
      subst hc; exact digitChar_isDigit h
    · simp [natToDigitsAux, h] at hc
      rcases hc with hc | hc
      · exact ih (n / 10) c hc
      · subst hc
        exact digitChar_isDigit (Nat.mod_lt _ (by norm_num))

theorem natToDigitsAux_ne_nil (fuel n : Nat) :
    natToDigitsAux (fuel + 1) n ≠ [] := by
  by_cases h : n < 10 <;> simp [natToDigitsAux, h]

theorem natToDigits_digits (n : Nat) : ∀ c ∈ natToDigits n, c.isDigit = true :=
  natToDigitsAux_digits (n + 1) n

theorem natToDigits_ne_nil (n : Nat) : natToDigits n ≠ [] :=
  natToDigitsAux_ne_nil n n

theorem padDigits_length (k m : Nat) : (padDigits k m).length = k := by
  induction k generalizing m with
  | zero => simp [padDigits]
  | succ k ih => simp [padDigits, ih]

theorem padDigits_digits (k m : Nat) : ∀ c ∈ padDigits k m, c.isDigit = true := by
  induction k generalizing m with
  | zero => intro c hc; simp [padDigits] at hc
  | succ k ih =>
    intro c hc
    simp [padDigits] at hc
    rcases hc with hc | hc
    · exact ih (m / 10) c hc
    · subst hc
      exact digitChar_isDigit (Nat.mod_lt _ (by norm_num))

/-- The `toFixed` model always produces a fixed-point decimal with exactly the
requested number of fractional digits. -/
theorem toFixedQ_isFixedDec (f : Nat) (x : ℚ) : isFixedDec f (toFixedQ f x) := by
  refine ⟨natToDigits (toFixedRound f x / 10 ^ f),
          padDigits f (toFixedRound f x % 10 ^ f), ?_, natToDigits_ne_nil _,
          padDigits_length _ _, natToDigits_digits _, padDigits_digits _ _⟩
  unfold toFixedQ
  by_cases h : x < 0 <;> simp [h, String.data_append]

/-- A fixed-point decimal never contains a newline character. -/
theorem isFixedDec_no_newline {f : Nat} {s : String} (h : isFixedDec f s) :
    '\n' ∉ s.data := by
  obtain ⟨ip, fp, hdata, -, -, hip, hfp⟩ := h
  intro hmem
  have hcore : '\n' ∉ ip ++ '.' :: fp := by
    intro hm
    rcases List.mem_append.mp hm with hm | hm
    · exact absurd (hip _ hm) (by decide)
    · rcases List.mem_cons.mp hm with hm | hm
      · exact absurd hm (by decide)
      · exact absurd (hfp _ hm) (by decide)
  rcases hdata with hd | hd <;> rw [hd] at hmem
  · exact hcore hmem
  · rcases List.mem_cons.mp hmem with hm | hm
    · exact absurd hm (by decide)
    · exact hcore hm

/-- Computation rule for the rounding step. -/
theorem toFixedRound_eq {f : Nat} {x : ℚ} {n : Nat}
    (h1 : (n : ℚ) ≤ |x| * 10 ^ f + 1 / 2) (h2 : |x| * 10 ^ f + 1 / 2 < n + 1) :
    toFixedRound f x = n := by
  unfold toFixedRound
  rw [Nat.floor_eq_iff (by positivity)]
  exact ⟨h1, h2⟩

/-- Computation rule for `toFixedQ` on nonnegative arguments. -/
theorem toFixedQ_eval {f : Nat} {x : ℚ} {n : Nat} (hx : ¬x < 0)
    (h1 : (n : ℚ) ≤ x * 10 ^ f + 1 / 2) (h2 : x * 10 ^ f + 1 / 2 < n + 1) :
    toFixedQ f x =
      String.mk (natToDigits (n / 10 ^ f)) ++ "." ++ String.mk (padDigits f (n % 10 ^ f)) := by
  have habs : |x| = x := abs_of_nonneg (not_lt.mp hx)
  have hr : toFixedRound f x = n := by
    refine toFixedRound_eq ?_ ?_ <;> rw [habs] <;> assumption
  unfold toFixedQ
  rw [if_neg hx, hr]

theorem toFixedQ_six_zero : toFixedQ 6 (0 : ℚ) = "0.000000" := by
  rw [toFixedQ_eval (n := 0) (by norm_num) (by norm_num) (by norm_num)]
  decide

theorem toFixedQ_twelve_zero : toFixedQ 12 (0 : ℚ) = "0.000000000000" := by
  rw [toFixedQ_eval (n := 0) (by norm_num) (by norm_num) (by norm_num)]
  decide

/-- Claim C7: the length and area formatters apply a fixed multiplicative
conversion per unit with a fixed decimal-place policy of 2 decimals, except
miles which use 3 decimals; in particular formatting a length of 1500 ground
meters in kilometers yields "1.50 km" and in miles yields "0.932 mi". -/
theorem format_length_area_policy :
    formatLength 1500 kmUnit = "1.50 km" ∧
    formatLength 1500 miUnit = "0.932 mi" ∧
    (∀ L : ℚ,
      formatLength L kmUnit = toFixedQ 2 (L / 1000) ++ " km" ∧
      formatLength L ftUnit = toFixedQ 2 (L * 3.28084) ++ " ft" ∧
      formatLength L miUnit = toFixedQ 3 (L * 0.000621371) ++ " mi" ∧
      formatLength L meterUnit = toFixedQ 2 L ++ " m") ∧
    (∀ A : ℚ,
      formatAreaMetric A haUnit = toFixedQ 2 (A / 10000) ++ " ha" ∧
      formatAreaMetric A sqkmUnit = toFixedQ 2 (A / 1000000) ++ " km²" ∧
      formatAreaMetric A acUnit = toFixedQ 2 (A * 0.000247105) ++ " ac" ∧
      formatAreaMetric A sqmUnit = toFixedQ 2 A ++ " m²") := by
  refine ⟨?_, ?_, ?_, ?_⟩
  · have h : formatLength 1500 kmUnit = toFixedQ 2 ((1500 : ℚ) / 1000) ++ " km" := by
      simp [formatLength, kmUnit]
    rw [h, toFixedQ_eval (n := 150) (by norm_num) (by norm_num) (by norm_num)]
    decide
  · have h : formatLength 1500 miUnit = toFixedQ 3 ((1500 : ℚ) * 0.000621371) ++ " mi" := by
      simp [formatLength, miUnit]
    rw [h, toFixedQ_eval (n := 932) (by norm_num) (by norm_num) (by norm_num)]
    decide
  · intro L
    refine ⟨?_, ?_, ?_, ?_⟩ <;> simp [formatLength, kmUnit, ftUnit, miUnit, meterUnit]
  · intro A
    refine ⟨?_, ?_, ?_, ?_⟩ <;> simp [formatAreaMetric, haUnit, sqkmUnit, acUnit, sqmUnit]

/-! ## Claim C1: scale and resolution are exact inverses -/

/-- For latitudes in the open interval used by the claim the cosine of the
radian latitude is positive. -/
theorem cos_deg_pos {lat : ℝ} (h1 : -85 < lat) (h2 : lat < 85) :
    0 < Real.cos (lat * Real.pi / 180) := by
  have hπ := Real.pi_pos
  apply Real.cos_pos_of_mem_Ioo
  constructor
  · have hp : 0 < Real.pi * (lat + 90) := mul_pos hπ (by linarith)
    nlinarith
  · have hp : 0 < Real.pi * (90 - lat) := mul_pos hπ (by linarith)
    nlinarith

/-- Claim C1: for every scaleDenominator s > 0 and every latitude in
(-85, 85), converting the scale to a resolution and back returns the same
scale (exactly, in real arithmetic, hence within floating-point tolerance). -/
theorem scale_resolution_round_trip (s lat : ℝ) (hs : 0 < s)
    (h1 : -85 < lat) (h2 : lat < 85) :
    calculateScaleVal (getResolutionFromScale s lat) lat = s := by
  have hcos : 0 < Real.cos (lat * Real.pi / 180) := cos_deg_pos h1 h2
  unfold calculateScaleVal getResolutionFromScale
  have hc : (0.000264583333 : ℝ) ≠ 0 := by norm_num
  field_simp

/-- Witness for C1 at s = 500, lat = 0. -/
theorem scale_resolution_round_trip_witness :
    (0 : ℝ) < 500 ∧ (-85 : ℝ) < 0 ∧ (0 : ℝ) < 85 ∧
      calculateScaleVal (getResolutionFromScale 500 0) 0 = 500 :=
  ⟨by norm_num, by norm_num, by norm_num,
    scale_resolution_round_trip 500 0 (by norm_num) (by norm_num) (by norm_num)⟩

/-! ## Claim C4: the export size guard -/

/-- Claim C4: whenever the computed pixel dimensions (ceil of extent span
over resolution) exceed 16384 in either axis, the export returns null with
the view untouched, before any view mutation or rendering. -/
theorem export_size_guard_rejects (rf wl : JVal → JVal → JVal) (ts : Option JVal)
    (ctx : Bool) (s : MapSources) (v : ViewState)
    (hne : s.selection.length + s.imported.length + s.points.length + s.measure.length ≠ 0)
    (hbig : (jgt (exportWidthPx rf wl ts s v) (.num 16384)
        || jgt (exportHeightPx rf wl ts s v) (.num 16384)) = true) :
    getMapCanvas rf wl ts ctx s v = (.sizeReject, v) := by
  unfold getMapCanvas
  rw [if_neg hne, if_pos hbig]

/-- Witness for C4: a request whose output grid is 20000 by 5000 pixels is
rejected before rendering, leaving the view state unchanged. -/
theorem export_size_guard_rejects_witness :
    exportWidthPx (fun _ _ => .num 0) (fun _ _ => .num 0) none
        ⟨[⟨.num 0, .num 0, .num 20000, .num 5000⟩], [], [], []⟩
        ⟨.num 800, .num 600, .num 1, .num 0, .num 0⟩ = .num 20000 ∧
    exportHeightPx (fun _ _ => .num 0) (fun _ _ => .num 0) none
        ⟨[⟨.num 0, .num 0, .num 20000, .num 5000⟩], [], [], []⟩
        ⟨.num 800, .num 600, .num 1, .num 0, .num 0⟩ = .num 5000 ∧
    getMapCanvas (fun _ _ => .num 0) (fun _ _ => .num 0) none true
        ⟨[⟨.num 0, .num 0, .num 20000, .num 5000⟩], [], [], []⟩
        ⟨.num 800, .num 600, .num 1, .num 0, .num 0⟩ =
      (.sizeReject, ⟨.num 800, .num 600, .num 1, .num 0, .num 0⟩) := by
  have hw : exportWidthPx (fun _ _ => .num 0) (fun _ _ => .num 0) none
      ⟨[⟨.num 0, .num 0, .num 20000, .num 5000⟩], [], [], []⟩
      ⟨.num 800, .num 600, .num 1, .num 0, .num 0⟩ = .num 20000 := by
    norm_num [exportWidthPx, exportResOf, exportExtent, getExtentJ, extendExtent,
      olEmptyExtent, jsOr1, jadd, jneg, jsub, jdiv, jceil, jgt, jlt]
  have hh : exportHeightPx (fun _ _ => .num 0) (fun _ _ => .num 0) none
      ⟨[⟨.num 0, .num 0, .num 20000, .num 5000⟩], [], [], []⟩
      ⟨.num 800, .num 600, .num 1, .num 0, .num 0⟩ = .num 5000 := by
    norm_num [exportHeightPx, exportResOf, exportExtent, getExtentJ, extendExtent,
      olEmptyExtent, jsOr1, jadd, jneg, jsub, jdiv, jceil, jgt, jlt]
  refine ⟨hw, hh, export_size_guard_rejects _ _ _ _ _ _ (by simp) ?_⟩
  rw [hw, hh]
  simp only [jgt, Bool.or_eq_true, decide_eq_true_eq]
  norm_num

/-! ## Claim C3: view restoration across the exits of the export -/

/-- Claim C3 failing-path evaluation: when the 2d drawing surface cannot be
obtained after the size guard has passed, the export resolves null from
inside the render-complete callback without executing the restore
statements, so the view is left at the export pixel grid instead of its
pre-call values. -/
theorem export_surface_fail_leaves_view_mutated :
    getMapCanvas (fun _ _ => .num 0) (fun _ _ => .num 0) none false
        ⟨[⟨.num 0, .num 0, .num 1000, .num 1000⟩], [], [], []⟩
        ⟨.num 800, .num 600, .num 2, .num 5, .num 5⟩ =
      (.surfaceFail (.num 500) (.num 500),
        ⟨.num 500, .num 500, .num 2, .num 500, .num 500⟩) ∧
    (⟨.num 500, .num 500, .num 2, .num 500, .num 500⟩ : ViewState) ≠
      ⟨.num 800, .num 600, .num 2, .num 5, .num 5⟩ := by
  constructor
  · norm_num [getMapCanvas, exportWidthPx, exportHeightPx, exportResOf, exportExtent,
      getExtentJ, extendExtent, olEmptyExtent, jsOr1, jadd, jneg, jsub, jdiv, jceil,
      jgt, jlt, Bool.or_eq_true, decide_eq_true_eq]
  · simp only [ne_eq, ViewState.mk.injEq, JVal.num.injEq]
    norm_num

/-! ## Claim C6: export extent determination -/

/-- Counterexample for C6 as stated: with only measurement geometry present
the call does not return null; the points collection is empty, its extent is
the infinite sentinel, the size guard compares false against the resulting
non-finite dimensions, and the export proceeds through render and resolves a
canvas. -/
theorem export_only_measure_not_null :
    getMapCanvas (fun _ _ => .num 0) (fun _ _ => .num 0) none true
        ⟨[], [], [], [⟨.num 0, .num 0, .num 10, .num 10⟩]⟩
        ⟨.num 800, .num 600, .num 1, .num 0, .num 0⟩ =
      (.done .ninf .ninf olEmptyExtent,
        ⟨.num 800, .num 600, .num 1, .num 0, .num 0⟩) := by
  norm_num [getMapCanvas, exportWidthPx, exportHeightPx, exportResOf, exportExtent,
    getExtentJ, extendExtent, olEmptyExtent, jsOr1, jadd, jneg, jsub, jdiv, jceil,
    jgt, jlt, Bool.or_eq_true, decide_eq_true_eq]

/-- Claim C6, amended: the export extent prefers the drawn selection
boundary's bounding box, else the imported geometry's, else the points'; the
export returns null with the view untouched when no geometry exists in any
collection; but when only measurement geometry exists the empty points
extent (the infinite sentinel, an array and hence never rejected by the
null test) is used and the export proceeds instead of returning null. -/
theorem export_extent_preference_amended (rf wl : JVal → JVal → JVal)
    (ts : Option JVal) (ctx : Bool) (s : MapSources) (v : ViewState) (r : ℚ) :
    (s.selection ≠ [] → exportExtent s = getExtentJ s.selection) ∧
    (s.selection = [] → s.imported ≠ [] → exportExtent s = getExtentJ s.imported) ∧
    (s.selection = [] → s.imported = [] → exportExtent s = getExtentJ s.points) ∧
    (s.selection = [] → s.imported = [] → s.points = [] → s.measure = [] →
      getMapCanvas rf wl ts ctx s v = (.noData, v)) ∧
    (s.selection = [] → s.imported = [] → s.points = [] → s.measure ≠ [] →
      v.res = .num r → 0 < r →
      getMapCanvas rf wl none true s v = (.done .ninf .ninf olEmptyExtent, v)) := by
  refine ⟨?_, ?_, ?_, ?_, ?_⟩
  · intro h
    have : s.selection.length > 0 := List.length_pos.mpr h
    simp [exportExtent, this]
  · intro h1 h2
    have : s.imported.length > 0 := List.length_pos.mpr h2
    simp [exportExtent, h1, this]
  · intro h1 h2
    simp [exportExtent, h1, h2]
  · intro h1 h2 h3 h4
    unfold getMapCanvas
    rw [if_pos (by simp [h1, h2, h3, h4])]
  · intro h1 h2 h3 h4 hres hr
    have hrne : r ≠ 0 := ne_of_gt hr
    have hrnlt : ¬r < 0 := not_lt.mpr hr.le
    have hext : exportExtent s = olEmptyExtent := by
      simp [exportExtent, h1, h2, h3, getExtentJ]
    have hresof : exportResOf rf wl none s v = .num r := by
      simp [exportResOf, hres, jsOr1, hrne]
    have hwidth : exportWidthPx rf wl none s v = .ninf := by
      simp [exportWidthPx, hext, hresof, olEmptyExtent, jsub, jneg, jadd, jdiv, jceil, hrnlt]
    have hheight : exportHeightPx rf wl none s v = .ninf := by
      simp [exportHeightPx, hext, hresof, olEmptyExtent, jsub, jneg, jadd, jdiv, jceil, hrnlt]
    unfold getMapCanvas
    rw [if_neg (by simp [h1, h2, h3, h4]), if_neg (by rw [hwidth, hheight]; simp [jgt]),
      if_pos rfl, hwidth, hheight, hext]

/-- Witness for the amended C6 at concrete collections. -/
theorem export_extent_preference_amended_witness :
    getMapCanvas (fun _ _ => .num 0) (fun _ _ => .num 0) none true
        ⟨[], [], [], []⟩ ⟨.num 640, .num 480, .num 3, .num 1, .num 1⟩ =
      (.noData, ⟨.num 640, .num 480, .num 3, .num 1, .num 1⟩) ∧
    getMapCanvas (fun _ _ => .num 0) (fun _ _ => .num 0) none true
        ⟨[], [], [], [⟨.num 2, .num 2, .num 5, .num 5⟩]⟩
        ⟨.num 640, .num 480, .num 3, .num 1, .num 1⟩ =
      (.done .ninf .ninf olEmptyExtent, ⟨.num 640, .num 480, .num 3, .num 1, .num 1⟩) :=
  ⟨(export_extent_preference_amended (fun _ _ => .num 0) (fun _ _ => .num 0) none true
      ⟨[], [], [], []⟩ ⟨.num 640, .num 480, .num 3, .num 1, .num 1⟩ 3).2.2.2.1
      rfl rfl rfl rfl,
   (export_extent_preference_amended (fun _ _ => .num 0) (fun _ _ => .num 0) none true
      ⟨[], [], [], [⟨.num 2, .num 2, .num 5, .num 5⟩]⟩
      ⟨.num 640, .num 480, .num 3, .num 1, .num 1⟩ 3).2.2.2.2
      rfl rfl rfl (by simp) rfl (by norm_num)⟩

/-! ## Claim C5: the world file payload -/

/-- Claim C5: the emitted world file consists of exactly six lines, each a
fixed-point decimal with 12 fractional digits (and hence newline free, so the
join really has six lines), in the order pixelSizeX, 0, 0, -pixelSizeY,
originX, originY, where the pixel sizes are the geodetic extent spans divided
by the pixel dimensions and the origin is the geodetic upper-left corner
(minimum longitude, maximum latitude). -/
theorem world_file_payload_layout (minLon minLat maxLon maxLat w h : ℚ) :
    (worldFileLines minLon minLat maxLon maxLat w h).length = 6 ∧
    worldFileLines minLon minLat maxLon maxLat w h =
      [toFixedQ 12 ((maxLon - minLon) / w), toFixedQ 12 0, toFixedQ 12 0,
       toFixedQ 12 (-((maxLat - minLat) / h)), toFixedQ 12 minLon,
       toFixedQ 12 maxLat] ∧
    (worldFileLines minLon minLat maxLon maxLat w h).Forall
      (fun l => isFixedDec 12 l ∧ '\n' ∉ l.data) ∧
    tfwPayload minLon minLat maxLon maxLat w h =
      String.intercalate newlineStr (worldFileLines minLon minLat maxLon maxLat w h) := by
  have hz : isFixedDec 12 "0.000000000000" :=
    toFixedQ_twelve_zero ▸ toFixedQ_isFixedDec 12 0
  have hzn : ('\n' : Char) ∉ ("0.000000000000" : String).data :=
    isFixedDec_no_newline hz
  refine ⟨rfl, ?_, ?_, rfl⟩
  · rw [toFixedQ_twelve_zero]
    rfl
  · unfold worldFileLines
    simp only [List.Forall]
    exact ⟨⟨toFixedQ_isFixedDec _ _, isFixedDec_no_newline (toFixedQ_isFixedDec _ _)⟩,
      ⟨hz, hzn⟩, ⟨hz, hzn⟩,
      ⟨toFixedQ_isFixedDec _ _, isFixedDec_no_newline (toFixedQ_isFixedDec _ _)⟩,
      ⟨toFixedQ_isFixedDec _ _, isFixedDec_no_newline (toFixedQ_isFixedDec _ _)⟩,
      ⟨toFixedQ_isFixedDec _ _, isFixedDec_no_newline (toFixedQ_isFixedDec _ _)⟩⟩

/-! ## Claim C8: projection rejection and batch skipping -/

/-- The push-style fold of the Excel import collects exactly the rows whose
parsing and projection succeed. -/
theorem processFold_eq_filterMap (tr : String → ℚ → ℚ → Proj4Result)
    (zone : String) (rows : List ExcelRow) (acc : List ValidPoint) :
    rows.foldl
      (fun acc r =>
        match rowPoint tr zone r with
        | some p => acc ++ [p]
        | none => acc) acc = acc ++ rows.filterMap (rowPoint tr zone) := by
  induction rows generalizing acc with
  | nil => simp
  | cons r rs ih =>
    cases hf : rowPoint tr zone r <;>
      simp [List.foldl_cons, hf, ih, List.filterMap_cons]

/-- Claim C8: the embedded `projectFromZone` is a total function (the
try/catch of the source turns engine exceptions into the sentinel), and every
rejection path yields none: out-of-range input in the trivial zone, an
engine exception, and an out-of-envelope transform result; during the batch
spreadsheet walk a row that fails projection is skipped while the remaining
rows of the batch are still processed. -/
theorem project_from_zone_rejects_and_batch_skips
    (tr : String → ℚ → ℚ → Proj4Result) (x y : ℚ) (zone : String)
    (rows : List ExcelRow) (r : ExcelRow) :
    (zone = wgsZone → ¬(|y| ≤ 90 ∧ |x| ≤ 180) →
      projectFromZone tr x y zone = none) ∧
    (zone ≠ wgsZone → tr zone x y = .exn → projectFromZone tr x y zone = none) ∧
    (∀ lng lat : ℚ, zone ≠ wgsZone → tr zone x y = .ok lng lat →
      ¬envelopeOk lng lat → projectFromZone tr x y zone = none) ∧
    (rowPoint tr zone r = none →
      processExcelRows tr zone (r :: rows) = processExcelRows tr zone rows) ∧
    processExcelRows tr zone rows = rows.filterMap (rowPoint tr zone) := by
  refine ⟨?_, ?_, ?_, ?_, ?_⟩
  · intro hz hrange
    simp [projectFromZone, hz, hrange]
  · intro hz htr
    simp [projectFromZone, hz, htr]
  · intro lng lat hz htr henv
    simp [projectFromZone, hz, htr, henv]
  · intro hrow
    unfold processExcelRows
    simp [List.foldl_cons, hrow]
  · simpa using processFold_eq_filterMap tr zone rows []

/-- Witness for C8: under an engine that maps everything to the geodetic
origin (outside the Moroccan envelope), a zone-1 projection is rejected with
the sentinel, and the bad batch row is skipped while the rest of the batch
is still processed. -/
theorem project_from_zone_rejects_and_batch_skips_witness :
    projectFromZone (fun _ _ _ => .ok 0 0) 0 0 zone1 = none ∧
    processExcelRows (fun _ _ _ => .ok 0 0) zone1
        [⟨some 0, some 0, none⟩, ⟨none, none, none⟩] =
      processExcelRows (fun _ _ _ => .ok 0 0) zone1 [⟨none, none, none⟩] := by
  have h1 : projectFromZone (fun _ _ _ => Proj4Result.ok 0 0) 0 0 zone1 = none :=
    (project_from_zone_rejects_and_batch_skips (fun _ _ _ => .ok 0 0) 0 0 zone1
        [] ⟨none, none, none⟩).2.2.1 0 0 (by decide) rfl (by norm_num [envelopeOk])
  refine ⟨h1, ?_⟩
  exact (project_from_zone_rejects_and_batch_skips (fun _ _ _ => .ok 0 0) 0 0 zone1
      [⟨none, none, none⟩] ⟨some 0, some 0, none⟩).2.2.2.1 (by simp [rowPoint, h1])

/-! ## Claim C9: unit propagation over measurement records -/

/-- Claim C9: updating the display unit rewrites only the displayed text of
every live measurement record (length records through the length formatter,
area records through the area formatter, both in the new unit) and leaves
the geometry, its kind and its ground measurement untouched. -/
theorem update_measure_unit_preserves_geometry (unit : String)
    (recs : List MeasurementRecord) :
    updateMeasureUnit unit recs = recs.map (refreshRecord unit) ∧
    (updateMeasureUnit unit recs).map MeasurementRecord.geom =
      recs.map MeasurementRecord.geom ∧
    (updateMeasureUnit unit recs).map MeasurementRecord.kind =
      recs.map MeasurementRecord.kind ∧
    (∀ (l : ℚ) (d : String),
      refreshRecord unit ⟨.length, .line l, d⟩ =
        ⟨.length, .line l, formatLength l unit⟩) ∧
    (∀ (a : ℚ) (d : String),
      refreshRecord unit ⟨.area, .poly a, d⟩ =
        ⟨.area, .poly a, formatAreaMetric a unit⟩) := by
  refine ⟨rfl, ?_, ?_, fun l d => rfl, fun a d => rfl⟩
  · simp only [updateMeasureUnit, List.map_map]
    exact List.map_congr_left fun r _ => rfl
  · simp only [updateMeasureUnit, List.map_map]
    exact List.map_congr_left fun r _ => rfl

/-! ## Claim C10: totality and sentinel of `convertToWGS84` -/

/-- Claim C10: `convertToWGS84` is total, always returns a pair of coordinate
strings with exactly 6 fractional digits, returns the sentinel pair when the
underlying projection fails, and returns the identical sentinel pair for a
successful projection of the point at latitude 0, longitude 0, so the two
are indistinguishable. -/
theorem convert_to_wgs84_total_sentinel (tr : ℚ → ℚ → Proj4Result) (x y : ℚ) :
    isFixedDec 6 (convertToWGS84 tr x y).lat ∧
    isFixedDec 6 (convertToWGS84 tr x y).lng ∧
    (tr x y = .exn → convertToWGS84 tr x y = ⟨"0.000000", "0.000000"⟩) ∧
    (tr x y = .ok 0 0 → convertToWGS84 tr x y = ⟨"0.000000", "0.000000"⟩) := by
  have hz : isFixedDec 6 "0.000000" := toFixedQ_six_zero ▸ toFixedQ_isFixedDec 6 0
  cases htr : tr x y with
  | ok lng lat =>
    refine ⟨?_, ?_, ?_, ?_⟩
    · simp only [convertToWGS84, htr]
      exact toFixedQ_isFixedDec 6 lat
    · simp only [convertToWGS84, htr]
      exact toFixedQ_isFixedDec 6 lng
    · intro hcontra
      exact absurd hcontra (by simp)
    · intro hOrigin
      injection hOrigin with h1 h2
      subst h1
      subst h2
      simp [convertToWGS84, htr, toFixedQ_six_zero]
  | exn =>
    refine ⟨?_, ?_, fun _ => ?_, ?_⟩
    · simp only [convertToWGS84, htr]
      exact hz
    · simp only [convertToWGS84, htr]
      exact hz
    · simp [convertToWGS84, htr]
    · intro hcontra
      exact absurd hcontra (by simp)

/-- Witness for C10 at a failing engine. -/
theorem convert_to_wgs84_total_sentinel_witness :
    convertToWGS84 (fun _ _ => .exn) 1 2 = ⟨"0.000000", "0.000000"⟩ ∧
    isFixedDec 6 (convertToWGS84 (fun _ _ => .exn) 1 2).lat :=
  ⟨(convert_to_wgs84_total_sentinel (fun _ _ => .exn) 1 2).2.2.1 rfl,
   (convert_to_wgs84_total_sentinel (fun _ _ => .exn) 1 2).1⟩
